import Mathlib

/-!
Shallow embedding of `src/create_background.py` (WallMotion repository).

The script is a linear sequence of PIL drawing calls: allocate a 600×400 RGB
canvas filled with light gray, draw an arrow line and arrowhead between two
fixed icon positions, resolve a font (with a bare-except fallback to the
default font), measure and center a fixed instruction string, draw the text,
save the canvas to `dmg-background.png`, and print a confirmation line.

The embedding represents the canvas as a record carrying its mode, size,
background color and the ordered list of drawing operations applied to it;
the external effects (font load outcome, text measurement, filesystem, save
outcome) are parameters of an `Env` record, and `run` produces the event
trace, final image, final filesystem, standard output and overall result.
-/

namespace CreateBackground

/-- An RGB color triple, as PIL receives it. -/
structure Color where
  r : Nat
  g : Nat
  b : Nat
deriving DecidableEq

/-- `width, height = 600, 400` -/
def width : Int := 600

/-- `width, height = 600, 400` -/
def height : Int := 400

/-- `bg_color = (245, 245, 245)` -/
def bg_color : Color := ⟨245, 245, 245⟩

/-- `text_color = (100, 100, 100)` -/
def text_color : Color := ⟨100, 100, 100⟩

/-- `arrow_color = (0, 122, 255)` -/
def arrow_color : Color := ⟨0, 122, 255⟩

/-- `app_x, app_y = 150, 180` -/
def app_x : Int := 150

/-- `app_x, app_y = 150, 180` -/
def app_y : Int := 180

/-- `folder_x, folder_y = 450, 180` -/
def folder_x : Int := 450

/-- `folder_x, folder_y = 450, 180` -/
def folder_y : Int := 180

/-- `arrow_start_x = app_x + 80` -/
def arrow_start_x : Int := app_x + 80

/-- `arrow_end_x = folder_x - 80` -/
def arrow_end_x : Int := folder_x - 80

/-- `arrow_y = app_y + 50` -/
def arrow_y : Int := app_y + 50

/-- `instruction = "Drag the app to the Applications folder"` -/
def instruction : String := "Drag the app to the Applications folder"

/-- The font file path passed to `ImageFont.truetype`. -/
def fontPath : String := "/System/Library/Fonts/Helvetica.ttc"

/-- The argument of `img.save`. -/
def outputPath : String := "dmg-background.png"

/-- The argument of the final `print` call. -/
def confirmation : String := "✅ Background created"

/-- A font handle: either a truetype font loaded from a path at a point
size, or the PIL built-in default font from `ImageFont.load_default()`. -/
inductive Font where
  | truetype (path : String) (size : Nat)
  | default
deriving DecidableEq

/-- A PIL drawing call recorded with its arguments: `draw.line`,
`draw.polygon` or `draw.text`. -/
inductive DrawOp where
  | line (x0 y0 x1 y1 : Int) (fill : Color) (strokeWidth : Nat)
  | polygon (pts : List (Int × Int)) (fill : Color)
  | text (x y : Int) (s : String) (fill : Color) (f : Font)
deriving DecidableEq

/-- The in-memory canvas: mode, dimensions, background fill, and the drawing
operations applied so far, in order. -/
structure Image where
  mode : String
  w : Int
  h : Int
  bg : Color
  ops : List DrawOp
deriving DecidableEq

/-- `Image.new(mode, (w, h), color)`: a fresh canvas with no drawing yet. -/
def Image.new (mode : String) (w h : Int) (c : Color) : Image :=
  ⟨mode, w, h, c, []⟩

/-- Apply one drawing call to the canvas (the `draw.*` methods mutate the
underlying image in place; here the operation is appended to the list). -/
def Image.draw (img : Image) (op : DrawOp) : Image :=
  { img with ops := img.ops ++ [op] }

/-- The result of `draw.textbbox`: a `(x0, y0, x1, y1)` bounding box. -/
structure BBox where
  x0 : Int
  y0 : Int
  x1 : Int
  y1 : Int
deriving DecidableEq

/-- An observable step of the script: canvas allocation, a drawing call,
the save call, or a line printed to standard output. -/
inductive Event where
  | alloc (mode : String) (w h : Int) (bg : Color)
  | draw (op : DrawOp)
  | save (path : String)
  | printLine (s : String)
deriving DecidableEq

def isAlloc : Event → Bool
  | .alloc _ _ _ _ => true
  | .draw _ => false
  | .save _ => false
  | .printLine _ => false

def isDraw : Event → Bool
  | .alloc _ _ _ _ => false
  | .draw _ => true
  | .save _ => false
  | .printLine _ => false

/-- The external world the script interacts with: the outcome of the
`ImageFont.truetype` call (which may raise an arbitrary exception of any
type `ε`), the text-measurement oracle `draw.textbbox` (anchor, string,
font), the filesystem, and the outcome of `img.save` (which may also
raise). Everything else in the script is a hardcoded constant. -/
structure Env (ε : Type) where
  fontAttempt : Except ε Unit
  textbbox : Int × Int → String → Font → BBox
  fs : String → Option Image
  saveResult : Except ε Unit

/-- The `try: font = ImageFont.truetype(...) except: font =
ImageFont.load_default()` block: a bare `except`, so every exception of
every type is caught and the default font substituted. -/
def resolveFont {ε : Type} (attempt : Except ε Unit) : Font :=
  match attempt with
  | .ok _ => .truetype fontPath 18
  | .error _ => .default

/-- The font the script ends up using. -/
def resolvedFont {ε : Type} (env : Env ε) : Font :=
  resolveFont env.fontAttempt

/-- `bbox = draw.textbbox((0, 0), instruction, font=font)` -/
def bbox {ε : Type} (env : Env ε) : BBox :=
  env.textbbox (0, 0) instruction (resolvedFont env)

/-- `text_width = bbox[2] - bbox[0]` -/
def text_width {ε : Type} (env : Env ε) : Int :=
  (bbox env).x1 - (bbox env).x0

/-- `text_x = (width - text_width) // 2` — Python `//` is floor division,
modelled by `Int.fdiv`. -/
def text_x {ε : Type} (env : Env ε) : Int :=
  Int.fdiv (width - text_width env) 2

/-- `text_y = height - 50` -/
def text_y : Int := height - 50

/-- `draw.line((arrow_start_x, arrow_y, arrow_end_x, arrow_y),
fill=arrow_color, width=4)` -/
def lineOp : DrawOp :=
  .line arrow_start_x arrow_y arrow_end_x arrow_y arrow_color 4

/-- `draw.polygon([(arrow_end_x, arrow_y), (arrow_end_x - 15, arrow_y - 8),
(arrow_end_x - 15, arrow_y + 8)], fill=arrow_color)` -/
def headOp : DrawOp :=
  .polygon [(arrow_end_x, arrow_y), (arrow_end_x - 15, arrow_y - 8),
    (arrow_end_x - 15, arrow_y + 8)] arrow_color

/-- `draw.text((text_x, text_y), instruction, fill=text_color, font=font)` -/
def textOp {ε : Type} (env : Env ε) : DrawOp :=
  .text (text_x env) text_y instruction text_color (resolvedFont env)

/-- `img = Image.new('RGB', (width, height), bg_color)` -/
def baseImage : Image := Image.new "RGB" width height bg_color

/-- The canvas after all three drawing calls, in source order. -/
def finalImage {ε : Type} (env : Env ε) : Image :=
  ((baseImage.draw lineOp).draw headOp).draw (textOp env)

/-- `img.save` writes the encoded image at the given path, replacing any
existing file there (PIL overwrites unconditionally). -/
def writeFile (fs : String → Option Image) (p : String) (img : Image) :
    String → Option Image :=
  fun q => if q = p then some img else fs q

/-- PIL chooses the output format from the filename extension; a name
ending in `.png` selects the PNG encoder. -/
def inferredFormat (path : String) : Option String :=
  if ".png".data.isSuffixOf path.data then some "PNG" else none

/-- What one execution of the script produces: its event trace, the final
canvas, the filesystem after it finishes, the lines printed to standard
output, and whether it finished normally or an exception escaped. -/
structure Outcome (ε : Type) where
  trace : List Event
  image : Image
  fsOut : String → Option Image
  stdout : List String
  result : Except ε Unit

/-- One run of `create_background.py`: allocation, the two arrow drawing
calls, font resolution, text layout and drawing, then `img.save` followed
by `print` — the print is reached only when the save does not raise, and
an exception from the save escapes the process (no handler surrounds it). -/
def run {ε : Type} (env : Env ε) : Outcome ε :=
  match env.saveResult with
  | .ok _ =>
      { trace := [.alloc "RGB" width height bg_color, .draw lineOp,
          .draw headOp, .draw (textOp env), .save outputPath,
          .printLine confirmation]
        image := finalImage env
        fsOut := writeFile env.fs outputPath (finalImage env)
        stdout := [confirmation]
        result := .ok () }
  | .error e =>
      { trace := [.alloc "RGB" width height bg_color, .draw lineOp,
          .draw headOp, .draw (textOp env), .save outputPath]
        image := finalImage env
        fsOut := env.fs
        stdout := []
        result := .error e }

/-- Margin left of the rendered text: the drawn x-position. -/
def leftMargin {ε : Type} (env : Env ε) : Int := text_x env

/-- Margin right of the rendered text bounding box. -/
def rightMargin {ε : Type} (env : Env ε) : Int :=
  width - (text_x env + text_width env)

/-- A concrete environment: font load succeeds, a fixed measurement oracle,
empty filesystem, save succeeds. -/
def envOk : Env Unit :=
  { fontAttempt := .ok ()
    textbbox := fun _ _ _ => ⟨0, 4, 317, 17⟩
    fs := fun _ => none
    saveResult := .ok () }

/-- A concrete environment in which the truetype font load raises. -/
def envFontFail : Env Unit :=
  { fontAttempt := .error ()
    textbbox := fun _ _ _ => ⟨0, 4, 317, 17⟩
    fs := fun _ => none
    saveResult := .ok () }

/-- A concrete environment in which `img.save` raises. -/
def envSaveFail : Env Unit :=
  { fontAttempt := .ok ()
    textbbox := fun _ _ _ => ⟨0, 4, 317, 17⟩
    fs := fun _ => none
    saveResult := .error () }

/-- C1: every run allocates exactly one canvas, of fixed dimensions 600×400
pixels, in RGB mode, uniformly filled with background color (245,245,245),
and this allocation is the first event of the run, before any drawing
operation. -/
theorem c1_canvas_allocation {ε : Type} (env : Env ε) :
    (run env).trace.head? = some (Event.alloc "RGB" 600 400 ⟨245, 245, 245⟩) ∧
    ((run env).trace.filter isAlloc).length = 1 ∧
    baseImage = Image.new "RGB" 600 400 ⟨245, 245, 245⟩ ∧
    baseImage.ops = [] := by
  cases h : env.saveResult <;>
    simp [run, h, baseImage, Image.new, width, height, bg_color, isAlloc]

/-- C2: when the save succeeds, the run writes exactly one file, named
`dmg-background.png`, holding the final 600×400 RGB canvas, in the format
PIL infers from the `.png` extension, overwriting whatever the filesystem
held at that path, and leaving every other path untouched. -/
theorem c2_output_file {ε : Type} (env : Env ε)
    (h : env.saveResult = .ok ()) :
    (run env).fsOut outputPath = some (finalImage env) ∧
    (∀ q, q ≠ outputPath → (run env).fsOut q = env.fs q) ∧
    outputPath = "dmg-background.png" ∧
    inferredFormat outputPath = some "PNG" ∧
    (finalImage env).mode = "RGB" ∧
    (finalImage env).w = 600 ∧ (finalImage env).h = 400 := by
  refine ⟨?_, ?_, rfl, by decide, rfl, rfl, rfl⟩
  · simp [run, h, writeFile]
  · intro q hq
    simp [run, h, writeFile, hq]

/-- C2 witness: instantiated at a concrete environment whose filesystem is
empty and whose save succeeds. -/
theorem c2_output_file_witness :
    (run envOk).fsOut outputPath = some (finalImage envOk) ∧
    inferredFormat outputPath = some "PNG" :=
  ⟨(c2_output_file envOk rfl).1, (c2_output_file envOk rfl).2.2.2.1⟩

/-- C3: the arrow is a horizontal line at y = app_y + 50 from
x = app_x + 80 to x = folder_x − 80 in color (0,122,255) with stroke
width 4, plus a filled triangle of the same color whose tip sits at the
line's end x-coordinate and whose back-vertices are offset −15 in x and
±8 in y from the tip, pointing toward increasing x; both drawing calls
appear in every run's trace. -/
theorem c3_arrow_geometry {ε : Type} (env : Env ε) :
    Event.draw lineOp ∈ (run env).trace ∧
    Event.draw headOp ∈ (run env).trace ∧
    lineOp = .line (app_x + 80) (app_y + 50) (folder_x - 80) (app_y + 50)
      ⟨0, 122, 255⟩ 4 ∧
    headOp = .polygon [(arrow_end_x, arrow_y), (arrow_end_x - 15, arrow_y - 8),
      (arrow_end_x - 15, arrow_y + 8)] ⟨0, 122, 255⟩ ∧
    arrow_end_x - 15 < arrow_end_x := by
  refine ⟨?_, ?_, by decide, by decide, by decide⟩ <;>
    cases h : env.saveResult <;> simp [run, h]

/-- C4: the instruction string is measured with the resolved font, and
drawn at x = (width − text_width) // 2 (floor division) and
y = height − 50 = 350, in color (100,100,100), with that same font; the
drawing call appears in every run's trace. -/
theorem c4_text_layout {ε : Type} (env : Env ε) :
    Event.draw (textOp env) ∈ (run env).trace ∧
    textOp env = .text (text_x env) text_y instruction ⟨100, 100, 100⟩
      (resolvedFont env) ∧
    text_x env = Int.fdiv (width - text_width env) 2 ∧
    text_width env =
      (env.textbbox (0, 0) instruction (resolvedFont env)).x1 -
      (env.textbbox (0, 0) instruction (resolvedFont env)).x0 ∧
    text_y = 350 ∧
    instruction = "Drag the app to the Applications folder" := by
  refine ⟨?_, rfl, rfl, rfl, by decide, rfl⟩
  cases h : env.saveResult <;> simp [run, h]

/-- C5: when the truetype load fails, the built-in default font is
substituted and (when nothing else raises) the run completes normally,
printing the confirmation — the font failure never escapes. -/
theorem c5_font_fallback {ε : Type} (env : Env ε) (e : ε)
    (hf : env.fontAttempt = .error e) (hs : env.saveResult = .ok ()) :
    resolvedFont env = Font.default ∧
    (run env).result = .ok () ∧
    (run env).stdout = [confirmation] := by
  refine ⟨?_, ?_, ?_⟩
  · simp [resolvedFont, resolveFont, hf]
  · simp [run, hs]
  · simp [run, hs]

/-- C5 witness: the fallback path at a concrete failing environment. -/
theorem c5_font_fallback_witness :
    resolvedFont envFontFail = Font.default ∧
    (run envFontFail).result = .ok () ∧
    (run envFontFail).stdout = [confirmation] :=
  c5_font_fallback envFontFail () rfl rfl

/-- C6: a successful run prints exactly the one fixed confirmation line;
if the save raises, the error propagates as the run's result and nothing
is printed. -/
theorem c6_confirmation_and_fatal {ε : Type} (env : Env ε) :
    (env.saveResult = .ok () → (run env).stdout = [confirmation] ∧
      (run env).result = .ok ()) ∧
    (∀ e, env.saveResult = .error e → (run env).result = .error e ∧
      (run env).stdout = []) := by
  constructor
  · intro h
    constructor <;> simp [run, h]
  · intro e h
    constructor <;> simp [run, h]

/-- C6 witness: both branches at concrete environments. -/
theorem c6_confirmation_and_fatal_witness :
    (run envOk).stdout = [confirmation] ∧
    (run envSaveFail).result = .error () ∧
    (run envSaveFail).stdout = [] :=
  ⟨((c6_confirmation_and_fatal envOk).1 rfl).1,
   ((c6_confirmation_and_fatal envSaveFail).2 () rfl).1,
   ((c6_confirmation_and_fatal envSaveFail).2 () rfl).2⟩

/-- C7: horizontal centering up to rounding — the right margin exceeds the
left margin by exactly the floor-division remainder of (width −
text_width) by 2, hence by 0 when that difference is even and by 1 when
it is odd, never more. -/
theorem c7_centering {ε : Type} (env : Env ε) :
    rightMargin env - leftMargin env = Int.fmod (width - text_width env) 2 ∧
    0 ≤ rightMargin env - leftMargin env ∧
    rightMargin env - leftMargin env ≤ 1 := by
  have h2 : (0:Int) ≤ 2 := by norm_num
  have hd : Int.fdiv (width - text_width env) 2 = (width - text_width env) / 2 :=
    Int.fdiv_eq_ediv _ h2
  have hm : Int.fmod (width - text_width env) 2 = (width - text_width env) % 2 :=
    Int.fmod_eq_emod _ h2
  unfold rightMargin leftMargin text_x
  rw [hd, hm]
  omega

/-- C8: the save occurs only after all drawing: in every run the trace
splits around the save event into a prefix holding the arrow line, the
arrowhead and the text drawing calls, and a suffix with no drawing call. -/
theorem c8_save_after_draws {ε : Type} (env : Env ε) :
    ∃ pre post, (run env).trace = pre ++ Event.save outputPath :: post ∧
      Event.draw lineOp ∈ pre ∧ Event.draw headOp ∈ pre ∧
      Event.draw (textOp env) ∈ pre ∧
      post.all (fun e => !(isDraw e)) = true := by
  cases h : env.saveResult with
  | ok u =>
      refine ⟨[.alloc "RGB" width height bg_color, .draw lineOp,
        .draw headOp, .draw (textOp env)], [.printLine confirmation],
        ?_, ?_, ?_, ?_, ?_⟩ <;> simp [run, h, isDraw]
  | error e =>
      refine ⟨[.alloc "RGB" width height bg_color, .draw lineOp,
        .draw headOp, .draw (textOp env)], [], ?_, ?_, ?_, ?_, ?_⟩ <;>
        simp [run, h]

/-- C9: the bare `except` catches every exception of every type: for any
error type and any error value, a failing truetype load yields the
default font, so no exception escapes the font-resolution step. -/
theorem c9_bare_except {ε : Type} (env : Env ε) (e : ε)
    (h : env.fontAttempt = .error e) :
    resolvedFont env = Font.default := by
  simp [resolvedFont, resolveFont, h]

/-- C9 witness: the catch-all at a concrete failing environment. -/
theorem c9_bare_except_witness :
    resolvedFont envFontFail = Font.default :=
  c9_bare_except envFontFail () rfl

/-- C10: every drawing coordinate is a constant inside the 600×400 canvas:
the line spans (230,230)–(370,230), the arrowhead triangle has vertices
(370,230), (355,222), (355,238), the text baseline y is 350, and the
arrow's y-position is derived solely as app_y + 50 from the application
icon's y-coordinate. -/
theorem c10_constant_geometry :
    lineOp = .line 230 230 370 230 arrow_color 4 ∧
    headOp = .polygon [(370, 230), (355, 222), (355, 238)] arrow_color ∧
    text_y = 350 ∧
    arrow_y = app_y + 50 ∧
    0 ≤ arrow_start_x ∧ arrow_end_x < width ∧
    0 ≤ arrow_y - 8 ∧ arrow_y + 8 < height ∧
    0 ≤ text_y ∧ text_y < height := by
  decide

end CreateBackground
